import Mathlib

/-!
Shallow embedding of `custom_components/humidifier_template/humidifier.py`
(the Template Humidifier platform for a home-automation runtime).

Python values produced by template rendering are modelled by `PyValue`
(floats as rationals).  A `Template` is modelled by its observable behaviour
at one instant: the outcome of `async_render` and the entity set of
`async_render_to_info`.  Scripts are opaque handles; invoking a script,
writing the entity state to the host and logging an error are recorded as
explicit `Effect`s.  Each method of the `TemplateHumidifier` class becomes a
function from the entity record to a new entity record plus a list of
effects, translated clause by clause from the source.
-/

namespace HumidifierTemplate

/-- Values a template render can produce: booleans, integers, floats
(modelled as rationals) and strings. -/
inductive PyValue where
  | bool (b : Bool)
  | int (n : Int)
  | float (q : ℚ)
  | str (s : String)
deriving DecidableEq

/-- Numeric view of a Python value: Python compares booleans, integers and
floats numerically; a string has no numeric view. -/
def pyNum : PyValue → Option ℚ
  | .bool b => some (if b then 1 else 0)
  | .int n => some (n : ℚ)
  | .float q => some q
  | .str _ => none

/-- Model of the Python equality test (as used by tuple membership `in`):
numeric values compare by value, strings compare with strings, and a
numeric value never equals a string. -/
def pyEq (a b : PyValue) : Bool :=
  match pyNum a, pyNum b with
  | some x, some y => x == y
  | _, _ =>
    match a, b with
    | .str s, .str t => s == t
    | _, _ => false

/-- Model of Python truthiness (`bool(value)`). -/
def pyTruthy : PyValue → Bool
  | .bool b => b
  | .int n => n != 0
  | .float q => q != 0
  | .str s => s != ""

/-- Value of a digit string, most significant digit first. -/
def digitsVal (cs : List Char) : Nat :=
  cs.foldl (fun n c => 10 * n + (c.toNat - 48)) 0

/-- Drop whitespace from both ends of a character list. -/
def stripList (cs : List Char) : List Char :=
  ((cs.dropWhile Char.isWhitespace).reverse.dropWhile Char.isWhitespace).reverse

/-- Model of the Python `str.strip()` method: remove surrounding
whitespace. -/
def pyStrip (s : String) : String :=
  ⟨stripList s.data⟩

/-- Model of parsing a string with the Python builtin `float`: optional
surrounding whitespace, an optional sign, then digits with an optional
decimal point.  `none` models a raised `ValueError`. -/
def parseFloat (s : String) : Option ℚ :=
  let cs := stripList s.data
  let signedBody : Bool × List Char :=
    match cs with
    | '-' :: rest => (true, rest)
    | '+' :: rest => (false, rest)
    | _ => (false, cs)
  let neg := signedBody.1
  let body := signedBody.2
  let intPart := body.takeWhile Char.isDigit
  let rest := body.dropWhile Char.isDigit
  let magnitude : Option ℚ :=
    match rest with
    | [] => if intPart.isEmpty then none else some ((digitsVal intPart : ℚ))
    | '.' :: frac =>
      if frac.all Char.isDigit && (!intPart.isEmpty || !frac.isEmpty) then
        some ((digitsVal intPart : ℚ) + (digitsVal frac : ℚ) / ((10 : ℚ) ^ frac.length))
      else none
    | _ => none
  magnitude.map (fun m => if neg then -m else m)

/-- Model of the Python builtin `float` applied to a rendered value:
booleans and integers convert exactly, floats are themselves, strings are
parsed; `none` models a raised `ValueError`. -/
def pyFloat : PyValue → Option ℚ
  | .bool b => some (if b then 1 else 0)
  | .int n => some ((n : ℚ))
  | .float q => some q
  | .str s => parseFloat s

/-- Model of the decimal representation the Python builtin `str` gives a
float. -/
def floatRepr (q : ℚ) : String :=
  if q.den = 1 then toString q.num ++ ".0"
  else toString q.num ++ "/" ++ toString q.den

/-- Model of the Python builtin `str` applied to a rendered value. -/
def pyStr : PyValue → String
  | .bool b => if b then "True" else "False"
  | .int n => toString n
  | .float q => floatRepr q
  | .str s => s

/-- The host's template error (`homeassistant.exceptions.TemplateError`),
carrying its message. -/
structure TemplateError where
  msg : String
deriving DecidableEq

/-- A template, modelled by its observable behaviour at one instant: the
outcome of `async_render` and the entity list of
`async_render_to_info().entities`. -/
structure Template where
  render : Except TemplateError PyValue
  renderInfoEntities : Except TemplateError (List String)

/-- An automation script (`homeassistant.helpers.script.Script`), modelled
as an opaque handle built from its configuration. -/
structure Script where
  conf : Nat
deriving DecidableEq

/-- Which of the five templates an error log line refers to. -/
inductive TemplateKind where
  | stateT
  | targetHumidityT
  | currentHumidityT
  | modeT
  | actionT
deriving DecidableEq

/-- Observable side effects of the entity's methods: logging a template
error, writing the entity state to the host (`async_write_ha_state`), and
running a script with a variable binding. -/
inductive Effect where
  | logTemplateError (kind : TemplateKind) (msg : String)
  | writeHAState
  | runScript (script : Script) (vars : List (String × PyValue))

/-- `DEFAULT_NAME` from the source. -/
def DEFAULT_NAME : String := "Template Humidifier"

/-- `DEFAULT_MIN_HUMIDITY` from the source (coerced to float by the schema). -/
def DEFAULT_MIN_HUMIDITY : ℚ := 40

/-- `DEFAULT_MAX_HUMIDITY` from the source (coerced to float by the schema). -/
def DEFAULT_MAX_HUMIDITY : ℚ := 70

/-- `DEFAULT_MODES` from the source: the nine official humidifier modes. -/
def DEFAULT_MODES : List String :=
  ["normal", "eco", "away", "boost", "comfort", "home", "sleep", "auto", "baby"]

/-- `homeassistant.const.STATE_ON`. -/
def STATE_ON : String := "on"

/-- `homeassistant.const.STATE_OFF`. -/
def STATE_OFF : String := "off"

/-- `HumidifierEntityFeature.MODES` (bit 0 of the feature bitmask). -/
def MODES_FEATURE : Nat := 1

/-- A configuration block as the platform receives it, before schema
validation: every field optional.  `min_humidity` and `max_humidity` arrive
as arbitrary values that `vol.Coerce(float)` will convert. -/
structure RawConfig where
  name : Option String
  unique_id : Option String
  min_humidity : Option PyValue
  max_humidity : Option PyValue
  target_humidity_template : Option Template
  current_humidity_template : Option Template
  state_template : Option Template
  mode_template : Option Template
  action_template : Option Template
  modes : Option (List String)
  set_target_humidity_action : Option Nat
  set_mode_action : Option Nat
  turn_on_action : Option Nat
  turn_off_action : Option Nat

/-- A configuration block after `PLATFORM_SCHEMA` validation: defaults
filled in, humidity bounds coerced to float. -/
structure Config where
  name : String
  unique_id : Option String
  min_humidity : ℚ
  max_humidity : ℚ
  target_humidity_template : Option Template
  current_humidity_template : Option Template
  state_template : Option Template
  mode_template : Option Template
  action_template : Option Template
  modes : List String
  set_target_humidity_action : Option Nat
  set_mode_action : Option Nat
  turn_on_action : Option Nat
  turn_off_action : Option Nat

/-- A schema validation failure (`vol.Invalid`), naming the field. -/
inductive SchemaError where
  | invalid (field : String)
deriving DecidableEq

/-- `vol.Coerce(float)`: apply the Python builtin `float`, raising
`vol.Invalid` when it raises. -/
def coerceFloat (field : String) (v : PyValue) : Except SchemaError ℚ :=
  match pyFloat v with
  | some q => .ok q
  | none => .error (.invalid field)

/-- `PLATFORM_SCHEMA` from the source: fill in the defaults for `name`,
`min_humidity`, `max_humidity` and `modes`, coerce the humidity bounds to
float, and pass the optional templates and script configurations through. -/
def applySchema (raw : RawConfig) : Except SchemaError Config := do
  let minH ← match raw.min_humidity with
    | none => coerceFloat "min_humidity" (.float DEFAULT_MIN_HUMIDITY)
    | some v => coerceFloat "min_humidity" v
  let maxH ← match raw.max_humidity with
    | none => coerceFloat "max_humidity" (.float DEFAULT_MAX_HUMIDITY)
    | some v => coerceFloat "max_humidity" v
  pure
    { name := raw.name.getD DEFAULT_NAME
      unique_id := raw.unique_id
      min_humidity := minH
      max_humidity := maxH
      target_humidity_template := raw.target_humidity_template
      current_humidity_template := raw.current_humidity_template
      state_template := raw.state_template
      mode_template := raw.mode_template
      action_template := raw.action_template
      modes := raw.modes.getD DEFAULT_MODES
      set_target_humidity_action := raw.set_target_humidity_action
      set_mode_action := raw.set_mode_action
      turn_on_action := raw.turn_on_action
      turn_off_action := raw.turn_off_action }

/-- The `TemplateHumidifier` entity: the fields set in `__init__`. -/
structure TemplateHumidifier where
  attr_name : String
  attr_unique_id : Option String
  attr_min_humidity : ℚ
  attr_max_humidity : ℚ
  attr_available_modes : List String
  target_humidity_template : Option Template
  current_humidity_template : Option Template
  state_template : Option Template
  mode_template : Option Template
  action_template : Option Template
  set_target_humidity_script : Option Script
  set_mode_script : Option Script
  turn_on_script : Option Script
  turn_off_script : Option Script
  attr_target_humidity : Option ℚ
  attr_current_humidity : Option ℚ
  attr_mode : Option String
  attr_action : Option String
  state : Bool
  attr_supported_features : Nat
  attr_device_class : String

namespace TemplateHumidifier

/-- `TemplateHumidifier.__init__`: copy the validated configuration into the
entity, build a `Script` for each configured action, start every template
driven attribute at `None` and the on/off state at `False`, and set the
`MODES` feature bit exactly when the mode list is truthy (non-empty). -/
def init (config : Config) : TemplateHumidifier :=
  let features0 : Nat := 0
  let features :=
    if config.modes.isEmpty then features0 else features0 ||| MODES_FEATURE
  { attr_name := config.name
    attr_unique_id := config.unique_id
    attr_min_humidity := config.min_humidity
    attr_max_humidity := config.max_humidity
    attr_available_modes := config.modes
    target_humidity_template := config.target_humidity_template
    current_humidity_template := config.current_humidity_template
    state_template := config.state_template
    mode_template := config.mode_template
    action_template := config.action_template
    set_target_humidity_script := config.set_target_humidity_action.map Script.mk
    set_mode_script := config.set_mode_action.map Script.mk
    turn_on_script := config.turn_on_action.map Script.mk
    turn_off_script := config.turn_off_action.map Script.mk
    attr_target_humidity := none
    attr_current_humidity := none
    attr_mode := none
    attr_action := none
    state := false
    attr_supported_features := features
    attr_device_class := "humidifier" }

/-- The `is_on` property. -/
def is_on (e : TemplateHumidifier) : Bool :=
  e.state

/-- The tuple `(True, "True", "true", "on", "On", "ON", STATE_ON, 1, "1")`
tested first in `_update_state` (with `STATE_ON = "on"` repeated, as in the
source). -/
def onValues : List PyValue :=
  [.bool true, .str "True", .str "true", .str "on", .str "On", .str "ON",
   .str STATE_ON, .int 1, .str "1"]

/-- The tuple `(False, "False", "false", "off", "Off", "OFF", STATE_OFF, 0,
"0")` tested second in `_update_state`. -/
def offValues : List PyValue :=
  [.bool false, .str "False", .str "false", .str "off", .str "Off", .str "OFF",
   .str STATE_OFF, .int 0, .str "0"]

/-- The state-template coercion in `_update_state`: membership (Python `in`,
hence Python `==`) in the true tuple gives `True`, membership in the false
tuple gives `False`, anything else is passed to `bool(...)`. -/
def stateCoerce (result : PyValue) : Bool :=
  if onValues.any (pyEq result) then true
  else if offValues.any (pyEq result) then false
  else pyTruthy result

/-- The message the `ValueError` raised by a failed `float(...)` carries in
the model. -/
def valueErrorMsg : String := "could not convert value to float"

/-- First `try` block of `_update_state`: render the state template, coerce
the result with `stateCoerce`; on `TemplateError` log and keep the previous
state. -/
def stateStep (e : TemplateHumidifier) : TemplateHumidifier × List Effect :=
  match e.state_template with
  | none => (e, [])
  | some t =>
    match t.render with
    | .error err => (e, [.logTemplateError .stateT err.msg])
    | .ok v => ({ e with state := stateCoerce v }, [])

/-- Second `try` block of `_update_state`: render the target-humidity
template and convert with `float(...)`; on `TemplateError` or `ValueError`
log and keep the previous value. -/
def targetStep (e : TemplateHumidifier) : TemplateHumidifier × List Effect :=
  match e.target_humidity_template with
  | none => (e, [])
  | some t =>
    match t.render with
    | .error err => (e, [.logTemplateError .targetHumidityT err.msg])
    | .ok v =>
      match pyFloat v with
      | some q => ({ e with attr_target_humidity := some q }, [])
      | none => (e, [.logTemplateError .targetHumidityT valueErrorMsg])

/-- Third `try` block of `_update_state`: the current-humidity template,
analogous to `targetStep`. -/
def currentStep (e : TemplateHumidifier) : TemplateHumidifier × List Effect :=
  match e.current_humidity_template with
  | none => (e, [])
  | some t =>
    match t.render with
    | .error err => (e, [.logTemplateError .currentHumidityT err.msg])
    | .ok v =>
      match pyFloat v with
      | some q => ({ e with attr_current_humidity := some q }, [])
      | none => (e, [.logTemplateError .currentHumidityT valueErrorMsg])

/-- Fourth `try` block of `_update_state`: render the mode template and
store `str(result).strip()`; on `TemplateError` log and keep the previous
mode. -/
def modeStep (e : TemplateHumidifier) : TemplateHumidifier × List Effect :=
  match e.mode_template with
  | none => (e, [])
  | some t =>
    match t.render with
    | .error err => (e, [.logTemplateError .modeT err.msg])
    | .ok v => ({ e with attr_mode := some (pyStrip (pyStr v)) }, [])

/-- Fifth `try` block of `_update_state`: render the action template and
store `str(result)`; on `TemplateError` log and keep the previous action. -/
def actionStep (e : TemplateHumidifier) : TemplateHumidifier × List Effect :=
  match e.action_template with
  | none => (e, [])
  | some t =>
    match t.render with
    | .error err => (e, [.logTemplateError .actionT err.msg])
    | .ok v => ({ e with attr_action := some (pyStr v) }, [])

/-- `_update_state`: the five `try` blocks in source order, each isolated
from the others; the effect list collects the error-log lines. -/
def updateState (e : TemplateHumidifier) : TemplateHumidifier × List Effect :=
  let r1 := stateStep e
  let r2 := targetStep r1.1
  let r3 := currentStep r2.1
  let r4 := modeStep r3.1
  let r5 := actionStep r4.1
  (r5.1, r1.2 ++ r2.2 ++ r3.2 ++ r4.2 ++ r5.2)

/-- `entities.update(info.entities)` on the Python `set`, modelled on a
duplicate-free list: insert each element not already present. -/
def insertAll (acc : List String) (xs : List String) : List String :=
  xs.foldl (fun a x => if x ∈ a then a else a ++ [x]) acc

/-- One iteration of the loop in `_get_template_entities`: a missing
template contributes nothing, a template whose reference analysis raises
`TemplateError` is skipped (`except TemplateError: pass`), otherwise its
entities are added to the set. -/
def gatherStep (acc : List String) (t : Option Template) : List String :=
  match t with
  | none => acc
  | some tpl =>
    match tpl.renderInfoEntities with
    | .error _ => acc
    | .ok es => insertAll acc es

/-- `_get_template_entities`: walk the five templates in source order,
collect `async_render_to_info().entities` of each configured one into a
set, skipping any template whose analysis raises `TemplateError`. -/
def _get_template_entities (e : TemplateHumidifier) : List String :=
  [e.target_humidity_template, e.current_humidity_template, e.state_template,
   e.mode_template, e.action_template].foldl gatherStep []

/-- The `_async_update_state` callback registered in `async_added_to_hass`:
run `_update_state`, then `async_write_ha_state`. -/
def onStateChange (e : TemplateHumidifier) : TemplateHumidifier × List Effect :=
  let r := updateState e
  (r.1, r.2 ++ [.writeHAState])

/-- Result of `async_added_to_hass`: which entities were registered for
state-change tracking, the entity after the initial update, and the effects
of that initial update. -/
structure AddedResult where
  trackedEntities : List String
  entity : TemplateHumidifier
  effects : List Effect

/-- `async_added_to_hass`: register `_async_update_state` for the entities
referenced by the templates, then run one initial `_update_state` (without a
state write). -/
def async_added_to_hass (e : TemplateHumidifier) : AddedResult :=
  let tracked := _get_template_entities e
  let r := updateState e
  ⟨tracked, r.1, r.2⟩

/-- `async_set_humidity`: run the configured script with the variable
`humidity`, or fall back to an optimistic in-memory write followed by
`async_write_ha_state`. -/
def async_set_humidity (e : TemplateHumidifier) (humidity : Int) :
    TemplateHumidifier × List Effect :=
  match e.set_target_humidity_script with
  | some s => (e, [.runScript s [("humidity", .int humidity)]])
  | none => ({ e with attr_target_humidity := some ((humidity : ℚ)) }, [.writeHAState])

/-- `async_set_mode`: run the configured script with the variable `mode`,
or fall back to an optimistic in-memory write followed by
`async_write_ha_state`. -/
def async_set_mode (e : TemplateHumidifier) (mode : String) :
    TemplateHumidifier × List Effect :=
  match e.set_mode_script with
  | some s => (e, [.runScript s [("mode", .str mode)]])
  | none => ({ e with attr_mode := some mode }, [.writeHAState])

/-- `async_turn_on`: run the configured script (no variables), or fall back
to optimistically setting the state on, followed by `async_write_ha_state`. -/
def async_turn_on (e : TemplateHumidifier) : TemplateHumidifier × List Effect :=
  match e.turn_on_script with
  | some s => (e, [.runScript s []])
  | none => ({ e with state := true }, [.writeHAState])

/-- `async_turn_off`: run the configured script (no variables), or fall
back to optimistically setting the state off, followed by
`async_write_ha_state`. -/
def async_turn_off (e : TemplateHumidifier) : TemplateHumidifier × List Effect :=
  match e.turn_off_script with
  | some s => (e, [.runScript s []])
  | none => ({ e with state := false }, [.writeHAState])

/-- Effect of one recompute on the on/off state, as a function of the state
template alone. -/
def newStateAttr (t : Option Template) (prev : Bool) : Bool :=
  match t with
  | none => prev
  | some tpl =>
    match tpl.render with
    | .error _ => prev
    | .ok v => stateCoerce v

/-- Effect of one recompute on a float attribute (target or current
humidity), as a function of its template alone. -/
def newFloatAttr (t : Option Template) (prev : Option ℚ) : Option ℚ :=
  match t with
  | none => prev
  | some tpl =>
    match tpl.render with
    | .error _ => prev
    | .ok v =>
      match pyFloat v with
      | some q => some q
      | none => prev

/-- Effect of one recompute on the mode attribute, as a function of the
mode template alone. -/
def newModeAttr (t : Option Template) (prev : Option String) : Option String :=
  match t with
  | none => prev
  | some tpl =>
    match tpl.render with
    | .error _ => prev
    | .ok v => some (pyStrip (pyStr v))

/-- Effect of one recompute on the action attribute, as a function of the
action template alone. -/
def newActionAttr (t : Option Template) (prev : Option String) : Option String :=
  match t with
  | none => prev
  | some tpl =>
    match tpl.render with
    | .error _ => prev
    | .ok v => some (pyStr v)

/-- Log lines produced by the state-template block of one recompute. -/
def stateStepLogs (t : Option Template) : List Effect :=
  match t with
  | none => []
  | some tpl =>
    match tpl.render with
    | .error err => [.logTemplateError .stateT err.msg]
    | .ok _ => []

/-- Log lines produced by a float-attribute block of one recompute. -/
def floatStepLogs (kind : TemplateKind) (t : Option Template) : List Effect :=
  match t with
  | none => []
  | some tpl =>
    match tpl.render with
    | .error err => [.logTemplateError kind err.msg]
    | .ok v =>
      match pyFloat v with
      | some _ => []
      | none => [.logTemplateError kind valueErrorMsg]

/-- Log lines produced by a string-attribute (mode or action) block of one
recompute. -/
def strStepLogs (kind : TemplateKind) (t : Option Template) : List Effect :=
  match t with
  | none => []
  | some tpl =>
    match tpl.render with
    | .error err => [.logTemplateError kind err.msg]
    | .ok _ => []

/-- The truthy literals the specification lists for the state-template
coercion, compared syntactically as the specification writes them. -/
def claimTrueLiterals : List PyValue :=
  [.bool true, .str "True", .str "true", .str "on", .str "On", .str "ON",
   .int 1, .str "1"]

/-- The falsy literals the specification lists for the state-template
coercion. -/
def claimFalseLiterals : List PyValue :=
  [.bool false, .str "False", .str "false", .str "off", .str "Off", .str "OFF",
   .int 0, .str "0"]

/-- The state coercion exactly as the specification words it: `True` for
any of the listed truthy literals, `False` for any of the listed falsy
literals, otherwise the truthiness of the rendered value. -/
def claimStateCoerce (v : PyValue) : Bool :=
  if v ∈ claimTrueLiterals then true
  else if v ∈ claimFalseLiterals then false
  else pyTruthy v

/-- A template that renders the string `"on"` and references two sensors. -/
def tplOn : Template :=
  ⟨.ok (.str "on"), .ok ["sensor.a", "sensor.b"]⟩

/-- A template that renders the float `55.5` and references one sensor. -/
def tplNum : Template :=
  ⟨.ok (.float (111 / 2)), .ok ["sensor.b"]⟩

/-- A template that renders the string ` eco ` (whitespace kept). -/
def tplMode : Template :=
  ⟨.ok (.str " eco "), .ok ["sensor.c"]⟩

/-- A template whose render and reference analysis both raise
`TemplateError`. -/
def tplErr : Template :=
  ⟨.error ⟨"boom"⟩, .error ⟨"boom"⟩⟩

/-- A template that renders a string `float` cannot convert. -/
def tplBad : Template :=
  ⟨.ok (.str "soggy"), .ok []⟩

/-- An entity with no templates and no scripts, every attribute at its
post-`__init__` value. -/
def bareEntity : TemplateHumidifier :=
  { attr_name := DEFAULT_NAME
    attr_unique_id := none
    attr_min_humidity := 40
    attr_max_humidity := 70
    attr_available_modes := DEFAULT_MODES
    target_humidity_template := none
    current_humidity_template := none
    state_template := none
    mode_template := none
    action_template := none
    set_target_humidity_script := none
    set_mode_script := none
    turn_on_script := none
    turn_off_script := none
    attr_target_humidity := none
    attr_current_humidity := none
    attr_mode := none
    attr_action := none
    state := false
    attr_supported_features := 1
    attr_device_class := "humidifier" }

/-- An entity with all four scripts configured. -/
def scriptedEntity : TemplateHumidifier :=
  { bareEntity with
    set_target_humidity_script := some ⟨1⟩
    set_mode_script := some ⟨2⟩
    turn_on_script := some ⟨3⟩
    turn_off_script := some ⟨4⟩ }

/-- A mixed configuration: only the turn-on script is configured, the
other three operations fall back to the optimistic write. -/
def mixedEntity : TemplateHumidifier :=
  { bareEntity with turn_on_script := some ⟨3⟩ }

/-- An entity with all five templates configured and rendering
successfully. -/
def templatedEntity : TemplateHumidifier :=
  { bareEntity with
    target_humidity_template := some tplNum
    current_humidity_template := some tplNum
    state_template := some tplOn
    mode_template := some tplMode
    action_template := some tplMode }

/-- An entity whose state template raises `TemplateError` while the four
other templates render successfully. -/
def stateErrEntity : TemplateHumidifier :=
  { templatedEntity with state_template := some tplErr }

/-- An entity whose target-humidity template renders a value `float`
rejects, while the mode template renders successfully. -/
def badFloatEntity : TemplateHumidifier :=
  { templatedEntity with target_humidity_template := some tplBad }

/-- A raw configuration block with every optional field absent. -/
def emptyRawConfig : RawConfig :=
  { name := none
    unique_id := none
    min_humidity := none
    max_humidity := none
    target_humidity_template := none
    current_humidity_template := none
    state_template := none
    mode_template := none
    action_template := none
    modes := none
    set_target_humidity_action := none
    set_mode_action := none
    turn_on_action := none
    turn_off_action := none }

/-- The configuration `applySchema` produces from `emptyRawConfig`: every
default. -/
def defaultConfig : Config :=
  { name := DEFAULT_NAME
    unique_id := none
    min_humidity := DEFAULT_MIN_HUMIDITY
    max_humidity := DEFAULT_MAX_HUMIDITY
    target_humidity_template := none
    current_humidity_template := none
    state_template := none
    mode_template := none
    action_template := none
    modes := DEFAULT_MODES
    set_target_humidity_action := none
    set_mode_action := none
    turn_on_action := none
    turn_off_action := none }

/-- A raw configuration block exercising the coercions and pass-throughs. -/
def sampleRawConfig : RawConfig :=
  { name := some "Bedroom humidifier"
    unique_id := some "bedroom_humidifier"
    min_humidity := some (.float 35)
    max_humidity := some (.int 80)
    target_humidity_template := some tplNum
    current_humidity_template := none
    state_template := some tplOn
    mode_template := none
    action_template := none
    modes := some ["normal", "eco"]
    set_target_humidity_action := some 1
    set_mode_action := none
    turn_on_action := some 3
    turn_off_action := none }

/-- The configuration `applySchema` produces from `sampleRawConfig`. -/
def sampleConfig : Config :=
  { name := "Bedroom humidifier"
    unique_id := some "bedroom_humidifier"
    min_humidity := 35
    max_humidity := ((80 : Int) : ℚ)
    target_humidity_template := some tplNum
    current_humidity_template := none
    state_template := some tplOn
    mode_template := none
    action_template := none
    modes := ["normal", "eco"]
    set_target_humidity_action := some 1
    set_mode_action := none
    turn_on_action := some 3
    turn_off_action := none }

/-- A validated configuration with an empty mode list amid otherwise
default values. -/
def noModesConfig : Config :=
  { name := DEFAULT_NAME
    unique_id := none
    min_humidity := 40
    max_humidity := 70
    target_humidity_template := none
    current_humidity_template := none
    state_template := none
    mode_template := none
    action_template := none
    modes := []
    set_target_humidity_action := none
    set_mode_action := none
    turn_on_action := none
    turn_off_action := none }

theorem stateStep_eq (e : TemplateHumidifier) :
    stateStep e = ({ e with state := newStateAttr e.state_template e.state },
      stateStepLogs e.state_template) := by
  obtain ⟨n, uid, mnh, mxh, mds, t1, t2, t3, t4, t5, s1, s2, s3, s4, a1, a2,
    a3, a4, st, sf, dc⟩ := e
  rcases t3 with _ | t
  · rfl
  · rcases hr : t.render with err | v <;>
      simp [stateStep, newStateAttr, stateStepLogs, hr]

theorem targetStep_eq (e : TemplateHumidifier) :
    targetStep e =
      ({ e with attr_target_humidity :=
          newFloatAttr e.target_humidity_template e.attr_target_humidity },
        floatStepLogs .targetHumidityT e.target_humidity_template) := by
  obtain ⟨n, uid, mnh, mxh, mds, t1, t2, t3, t4, t5, s1, s2, s3, s4, a1, a2,
    a3, a4, st, sf, dc⟩ := e
  rcases t1 with _ | t
  · rfl
  · rcases hr : t.render with err | v
    · simp [targetStep, newFloatAttr, floatStepLogs, hr]
    · rcases hf : pyFloat v with _ | q <;>
        simp [targetStep, newFloatAttr, floatStepLogs, hr, hf]

theorem currentStep_eq (e : TemplateHumidifier) :
    currentStep e =
      ({ e with attr_current_humidity :=
          newFloatAttr e.current_humidity_template e.attr_current_humidity },
        floatStepLogs .currentHumidityT e.current_humidity_template) := by
  obtain ⟨n, uid, mnh, mxh, mds, t1, t2, t3, t4, t5, s1, s2, s3, s4, a1, a2,
    a3, a4, st, sf, dc⟩ := e
  rcases t2 with _ | t
  · rfl
  · rcases hr : t.render with err | v
    · simp [currentStep, newFloatAttr, floatStepLogs, hr]
    · rcases hf : pyFloat v with _ | q <;>
        simp [currentStep, newFloatAttr, floatStepLogs, hr, hf]

theorem modeStep_eq (e : TemplateHumidifier) :
    modeStep e = ({ e with attr_mode := newModeAttr e.mode_template e.attr_mode },
      strStepLogs .modeT e.mode_template) := by
  obtain ⟨n, uid, mnh, mxh, mds, t1, t2, t3, t4, t5, s1, s2, s3, s4, a1, a2,
    a3, a4, st, sf, dc⟩ := e
  rcases t4 with _ | t
  · rfl
  · rcases hr : t.render with err | v <;>
      simp [modeStep, newModeAttr, strStepLogs, hr]

theorem actionStep_eq (e : TemplateHumidifier) :
    actionStep e =
      ({ e with attr_action := newActionAttr e.action_template e.attr_action },
        strStepLogs .actionT e.action_template) := by
  obtain ⟨n, uid, mnh, mxh, mds, t1, t2, t3, t4, t5, s1, s2, s3, s4, a1, a2,
    a3, a4, st, sf, dc⟩ := e
  rcases t5 with _ | t
  · rfl
  · rcases hr : t.render with err | v <;>
      simp [actionStep, newActionAttr, strStepLogs, hr]

/-- One recompute decomposes attribute by attribute: each observable
attribute is driven by its own template only, and the log is the
concatenation of the five blocks' logs in source order. -/
theorem updateState_eq (e : TemplateHumidifier) :
    updateState e =
      ({ e with
          state := newStateAttr e.state_template e.state
          attr_target_humidity :=
            newFloatAttr e.target_humidity_template e.attr_target_humidity
          attr_current_humidity :=
            newFloatAttr e.current_humidity_template e.attr_current_humidity
          attr_mode := newModeAttr e.mode_template e.attr_mode
          attr_action := newActionAttr e.action_template e.attr_action },
        stateStepLogs e.state_template ++
          floatStepLogs .targetHumidityT e.target_humidity_template ++
          floatStepLogs .currentHumidityT e.current_humidity_template ++
          strStepLogs .modeT e.mode_template ++
          strStepLogs .actionT e.action_template) := by
  simp [updateState, stateStep_eq, targetStep_eq, currentStep_eq, modeStep_eq,
    actionStep_eq]

theorem insertAll_mem (acc xs : List String) (y : String) :
    y ∈ insertAll acc xs ↔ y ∈ acc ∨ y ∈ xs := by
  induction xs generalizing acc with
  | nil => simp [insertAll]
  | cons x xs ih =>
    have hstep : insertAll acc (x :: xs) =
        insertAll (if x ∈ acc then acc else acc ++ [x]) xs := rfl
    rw [hstep, ih]
    by_cases hx : x ∈ acc
    · simp only [hx, if_true, List.mem_cons]
      constructor
      · rintro (h | h)
        · exact Or.inl h
        · exact Or.inr (Or.inr h)
      · rintro (h | rfl | h)
        · exact Or.inl h
        · exact Or.inl hx
        · exact Or.inr h
    · simp only [hx, if_false, List.mem_append, List.mem_singleton,
        List.mem_cons]
      tauto

theorem insertAll_nodup (acc xs : List String) (h : acc.Nodup) :
    (insertAll acc xs).Nodup := by
  induction xs generalizing acc with
  | nil => simpa [insertAll] using h
  | cons x xs ih =>
    have hstep : insertAll acc (x :: xs) =
        insertAll (if x ∈ acc then acc else acc ++ [x]) xs := rfl
    rw [hstep]
    by_cases hx : x ∈ acc
    · simpa [hx] using ih acc h
    · refine ih _ ?_
      simp [hx, List.nodup_append, h]

theorem gatherStep_mem (acc : List String) (t : Option Template) (y : String) :
    y ∈ gatherStep acc t ↔
      y ∈ acc ∨ ∃ tpl es, t = some tpl ∧ tpl.renderInfoEntities = .ok es ∧ y ∈ es := by
  rcases t with _ | tpl
  · simp [gatherStep]
  · rcases hr : tpl.renderInfoEntities with err | es <;>
      simp [gatherStep, hr, insertAll_mem]

theorem gatherStep_nodup (acc : List String) (t : Option Template)
    (h : acc.Nodup) : (gatherStep acc t).Nodup := by
  rcases t with _ | tpl
  · simpa [gatherStep] using h
  · rcases hr : tpl.renderInfoEntities with err | es
    · simpa [gatherStep, hr] using h
    · simpa [gatherStep, hr] using insertAll_nodup acc es h

theorem gather_fold_mem (ts : List (Option Template)) (acc : List String)
    (y : String) :
    y ∈ ts.foldl gatherStep acc ↔
      y ∈ acc ∨ ∃ t ∈ ts, ∃ tpl es, t = some tpl ∧
        tpl.renderInfoEntities = .ok es ∧ y ∈ es := by
  induction ts generalizing acc with
  | nil => simp
  | cons t ts ih =>
    rw [List.foldl_cons, ih, gatherStep_mem]
    simp only [List.mem_cons]
    constructor
    · rintro ((h | ⟨tpl, es, ht, hok, hy⟩) | ⟨u, hu, tpl, es, hut, hok, hy⟩)
      · exact Or.inl h
      · exact Or.inr ⟨t, Or.inl rfl, tpl, es, ht, hok, hy⟩
      · exact Or.inr ⟨u, Or.inr hu, tpl, es, hut, hok, hy⟩
    · rintro (h | ⟨u, (rfl | hu), tpl, es, hut, hok, hy⟩)
      · exact Or.inl (Or.inl h)
      · exact Or.inl (Or.inr ⟨tpl, es, hut, hok, hy⟩)
      · exact Or.inr ⟨u, hu, tpl, es, hut, hok, hy⟩

theorem gather_fold_nodup (ts : List (Option Template)) (acc : List String)
    (h : acc.Nodup) : (ts.foldl gatherStep acc).Nodup := by
  induction ts generalizing acc with
  | nil => simpa using h
  | cons t ts ih => exact ih _ (gatherStep_nodup acc t h)

theorem mem_stateStepLogs_kind (k : TemplateKind) (m : String)
    (t : Option Template) :
    Effect.logTemplateError k m ∈ stateStepLogs t → k = .stateT := by
  rcases t with _ | tpl
  · simp [stateStepLogs]
  · rcases hr : tpl.render with err | v
    · simp only [stateStepLogs, hr, List.mem_singleton,
        Effect.logTemplateError.injEq]
      exact fun h => h.1
    · simp [stateStepLogs, hr]

theorem mem_floatStepLogs_kind (k : TemplateKind) (m : String)
    (kind : TemplateKind) (t : Option Template) :
    Effect.logTemplateError k m ∈ floatStepLogs kind t → k = kind := by
  rcases t with _ | tpl
  · simp [floatStepLogs]
  · rcases hr : tpl.render with err | v
    · simp only [floatStepLogs, hr, List.mem_singleton,
        Effect.logTemplateError.injEq]
      exact fun h => h.1
    · rcases hf : pyFloat v with _ | q
      · simp only [floatStepLogs, hr, hf, List.mem_singleton,
          Effect.logTemplateError.injEq]
        exact fun h => h.1
      · simp [floatStepLogs, hr, hf]

theorem mem_strStepLogs_kind (k : TemplateKind) (m : String)
    (kind : TemplateKind) (t : Option Template) :
    Effect.logTemplateError k m ∈ strStepLogs kind t → k = kind := by
  rcases t with _ | tpl
  · simp [strStepLogs]
  · rcases hr : tpl.render with err | v
    · simp only [strStepLogs, hr, List.mem_singleton,
        Effect.logTemplateError.injEq]
      exact fun h => h.1
    · simp [strStepLogs, hr]

/-- The coercion `_update_state` applies to the state-template result (a
Python `in` test against two tuples, then `bool(...)`) computes exactly the
function the specification describes with syntactic literal lists and
truthiness. -/
theorem stateCoerce_eq_claim (v : PyValue) :
    stateCoerce v = claimStateCoerce v := by
  rcases v with b | n | q | s
  · cases b <;> decide
  · by_cases h1 : n = 1
    · subst h1; decide
    · by_cases h0 : n = 0
      · subst h0; decide
      · have c1 : ((n : ℚ) == 1) = false :=
          beq_eq_false_iff_ne.mpr (by exact_mod_cast h1)
        have c0 : ((n : ℚ) == 0) = false :=
          beq_eq_false_iff_ne.mpr (by exact_mod_cast h0)
        simp [stateCoerce, claimStateCoerce, claimTrueLiterals,
          claimFalseLiterals, onValues, offValues, pyEq, pyNum, pyTruthy,
          STATE_ON, STATE_OFF, c1, c0, h1, h0]
  · by_cases h1 : q = 1
    · subst h1; decide
    · by_cases h0 : q = 0
      · subst h0; decide
      · have c1 : (q == 1) = false := beq_eq_false_iff_ne.mpr h1
        have c0 : (q == 0) = false := beq_eq_false_iff_ne.mpr h0
        simp [stateCoerce, claimStateCoerce, claimTrueLiterals,
          claimFalseLiterals, onValues, offValues, pyEq, pyNum, pyTruthy,
          STATE_ON, STATE_OFF, c1, c0, h1, h0]
  · by_cases hT : s ∈ (["True", "true", "on", "On", "ON", "1"] : List String)
    · simp only [List.mem_cons, List.not_mem_nil, or_false] at hT
      rcases hT with rfl | rfl | rfl | rfl | rfl | rfl <;> decide
    · by_cases hF : s ∈ (["False", "false", "off", "Off", "OFF", "0"] :
          List String)
      · simp only [List.mem_cons, List.not_mem_nil, or_false] at hF
        rcases hF with rfl | rfl | rfl | rfl | rfl | rfl <;> decide
      · simp only [List.mem_cons, List.not_mem_nil, or_false, not_or] at hT hF
        obtain ⟨hT1, hT2, hT3, hT4, hT5, hT6⟩ := hT
        obtain ⟨hF1, hF2, hF3, hF4, hF5, hF6⟩ := hF
        simp [stateCoerce, claimStateCoerce, claimTrueLiterals,
          claimFalseLiterals, onValues, offValues, pyEq, pyNum, pyTruthy,
          STATE_ON, STATE_OFF, hT1, hT2, hT3, hT4, hT5, hT6,
          hF1, hF2, hF3, hF4, hF5, hF6]

/-- C1: for each of the four control operations independently, when that
operation's own script is not configured — whatever the other three
scripts are — the operation performs an optimistic in-memory write (the
target humidity to the given value, the mode to the given mode, the on/off
state to on respectively off) and then writes the entity state to the
host. -/
theorem claim_C1_optimistic_fallback (e : TemplateHumidifier) (humidity : Int)
    (mode : String) :
    (e.set_target_humidity_script = none →
      async_set_humidity e humidity =
        ({ e with attr_target_humidity := some ((humidity : ℚ)) },
          [Effect.writeHAState])) ∧
    (e.set_mode_script = none →
      async_set_mode e mode = ({ e with attr_mode := some mode },
        [Effect.writeHAState])) ∧
    (e.turn_on_script = none →
      async_turn_on e = ({ e with state := true }, [Effect.writeHAState])) ∧
    (e.turn_off_script = none →
      async_turn_off e = ({ e with state := false }, [Effect.writeHAState])) := by
  refine ⟨fun h => ?_, fun h => ?_, fun h => ?_, fun h => ?_⟩ <;>
    simp [async_set_humidity, async_set_mode, async_turn_on, async_turn_off, h]

theorem claim_C1_optimistic_fallback_witness :
    mixedEntity.set_target_humidity_script = none ∧
    mixedEntity.set_mode_script = none ∧
    mixedEntity.turn_off_script = none ∧
    mixedEntity.turn_on_script = some ⟨3⟩ ∧
    async_set_humidity mixedEntity 55 =
      ({ mixedEntity with attr_target_humidity := some (((55 : Int) : ℚ)) },
        [Effect.writeHAState]) ∧
    async_set_mode mixedEntity "eco" =
      ({ mixedEntity with attr_mode := some "eco" }, [Effect.writeHAState]) ∧
    async_turn_off mixedEntity = ({ mixedEntity with state := false },
      [Effect.writeHAState]) ∧
    async_turn_on bareEntity = ({ bareEntity with state := true },
      [Effect.writeHAState]) :=
  ⟨rfl, rfl, rfl, rfl,
    (claim_C1_optimistic_fallback mixedEntity 55 "eco").1 rfl,
    (claim_C1_optimistic_fallback mixedEntity 55 "eco").2.1 rfl,
    (claim_C1_optimistic_fallback mixedEntity 55 "eco").2.2.2 rfl,
    (claim_C1_optimistic_fallback bareEntity 55 "eco").2.2.1 rfl⟩

/-- C2: for each of the four control operations independently, when that
operation's own script is configured — whatever the other three scripts
are — the operation runs that script (with the variable `humidity` for
`async_set_humidity`, `mode` for `async_set_mode`, and no variables for
turn on/off) and leaves the entity record (hence every in-memory
attribute) unchanged, with no state write. -/
theorem claim_C2_script_dispatch (e : TemplateHumidifier) (humidity : Int)
    (mode : String) :
    (∀ s, e.set_target_humidity_script = some s →
      async_set_humidity e humidity =
        (e, [Effect.runScript s [("humidity", .int humidity)]])) ∧
    (∀ s, e.set_mode_script = some s →
      async_set_mode e mode = (e, [Effect.runScript s [("mode", .str mode)]])) ∧
    (∀ s, e.turn_on_script = some s →
      async_turn_on e = (e, [Effect.runScript s []])) ∧
    (∀ s, e.turn_off_script = some s →
      async_turn_off e = (e, [Effect.runScript s []])) := by
  refine ⟨fun s h => ?_, fun s h => ?_, fun s h => ?_, fun s h => ?_⟩ <;>
    simp [async_set_humidity, async_set_mode, async_turn_on, async_turn_off, h]

theorem claim_C2_script_dispatch_witness :
    scriptedEntity.set_target_humidity_script = some ⟨1⟩ ∧
    scriptedEntity.set_mode_script = some ⟨2⟩ ∧
    scriptedEntity.turn_off_script = some ⟨4⟩ ∧
    async_set_humidity scriptedEntity 55 =
      (scriptedEntity, [Effect.runScript ⟨1⟩ [("humidity", .int 55)]]) ∧
    async_set_mode scriptedEntity "eco" =
      (scriptedEntity, [Effect.runScript ⟨2⟩ [("mode", .str "eco")]]) ∧
    async_turn_off scriptedEntity = (scriptedEntity, [Effect.runScript ⟨4⟩ []]) ∧
    mixedEntity.set_target_humidity_script = none ∧
    mixedEntity.turn_on_script = some ⟨3⟩ ∧
    async_turn_on mixedEntity = (mixedEntity, [Effect.runScript ⟨3⟩ []]) :=
  ⟨rfl, rfl, rfl,
    (claim_C2_script_dispatch scriptedEntity 55 "eco").1 ⟨1⟩ rfl,
    (claim_C2_script_dispatch scriptedEntity 55 "eco").2.1 ⟨2⟩ rfl,
    (claim_C2_script_dispatch scriptedEntity 55 "eco").2.2.2 ⟨4⟩ rfl,
    rfl, rfl,
    (claim_C2_script_dispatch mixedEntity 55 "eco").2.2.1 ⟨3⟩ rfl⟩

/-- C8: an attribute whose template is not configured is left unchanged by
a recompute, for each of the five attributes. -/
theorem claim_C8_unconfigured_frame (e : TemplateHumidifier) :
    (e.state_template = none → (updateState e).1.state = e.state) ∧
    (e.target_humidity_template = none →
      (updateState e).1.attr_target_humidity = e.attr_target_humidity) ∧
    (e.current_humidity_template = none →
      (updateState e).1.attr_current_humidity = e.attr_current_humidity) ∧
    (e.mode_template = none → (updateState e).1.attr_mode = e.attr_mode) ∧
    (e.action_template = none → (updateState e).1.attr_action = e.attr_action) := by
  refine ⟨fun h => ?_, fun h => ?_, fun h => ?_, fun h => ?_, fun h => ?_⟩ <;>
    simp [updateState_eq, newStateAttr, newFloatAttr, newModeAttr,
      newActionAttr, h]

theorem claim_C8_unconfigured_frame_witness :
    (updateState bareEntity).1.state = bareEntity.state ∧
    (updateState bareEntity).1.attr_target_humidity =
      bareEntity.attr_target_humidity ∧
    (updateState bareEntity).1.attr_current_humidity =
      bareEntity.attr_current_humidity ∧
    (updateState bareEntity).1.attr_mode = bareEntity.attr_mode ∧
    (updateState bareEntity).1.attr_action = bareEntity.attr_action :=
  ⟨(claim_C8_unconfigured_frame bareEntity).1 rfl,
    (claim_C8_unconfigured_frame bareEntity).2.1 rfl,
    (claim_C8_unconfigured_frame bareEntity).2.2.1 rfl,
    (claim_C8_unconfigured_frame bareEntity).2.2.2.1 rfl,
    (claim_C8_unconfigured_frame bareEntity).2.2.2.2 rfl⟩

/-- C9: immediately after `__init__` the target humidity, current humidity,
mode and action are `None`, `is_on` is `False`, and the `MODES` feature bit
is set exactly when the configured mode list is non-empty. -/
theorem claim_C9_post_init (config : Config) :
    (init config).attr_target_humidity = none ∧
    (init config).attr_current_humidity = none ∧
    (init config).attr_mode = none ∧
    (init config).attr_action = none ∧
    is_on (init config) = false ∧
    ((init config).attr_supported_features &&& MODES_FEATURE = MODES_FEATURE ↔
      config.modes ≠ []) := by
  refine ⟨rfl, rfl, rfl, rfl, rfl, ?_⟩
  by_cases h : config.modes.isEmpty
  · have h' : config.modes = [] := by simpa using h
    simp [init, MODES_FEATURE, h, h']
  · have h' : config.modes ≠ [] := by simpa using h
    simp [init, MODES_FEATURE, h, h']

/-- C3: when one template's render raises `TemplateError` during a
recompute, the attribute it drives keeps its previous value and the error
is logged; and every attribute of the recompute's result is a function of
its own template alone, so the other templates are still rendered and their
attributes still updated. -/
theorem claim_C3_template_error_isolated (e : TemplateHumidifier)
    (t : Template) (err : TemplateError) (hr : t.render = .error err) :
    (e.state_template = some t →
      (updateState e).1.state = e.state ∧
      Effect.logTemplateError .stateT err.msg ∈ (updateState e).2) ∧
    (e.target_humidity_template = some t →
      (updateState e).1.attr_target_humidity = e.attr_target_humidity ∧
      Effect.logTemplateError .targetHumidityT err.msg ∈ (updateState e).2) ∧
    (e.current_humidity_template = some t →
      (updateState e).1.attr_current_humidity = e.attr_current_humidity ∧
      Effect.logTemplateError .currentHumidityT err.msg ∈ (updateState e).2) ∧
    (e.mode_template = some t →
      (updateState e).1.attr_mode = e.attr_mode ∧
      Effect.logTemplateError .modeT err.msg ∈ (updateState e).2) ∧
    (e.action_template = some t →
      (updateState e).1.attr_action = e.attr_action ∧
      Effect.logTemplateError .actionT err.msg ∈ (updateState e).2) ∧
    (updateState e).1.state = newStateAttr e.state_template e.state ∧
    (updateState e).1.attr_target_humidity =
      newFloatAttr e.target_humidity_template e.attr_target_humidity ∧
    (updateState e).1.attr_current_humidity =
      newFloatAttr e.current_humidity_template e.attr_current_humidity ∧
    (updateState e).1.attr_mode = newModeAttr e.mode_template e.attr_mode ∧
    (updateState e).1.attr_action =
      newActionAttr e.action_template e.attr_action := by
  refine ⟨fun h => ⟨?_, ?_⟩, fun h => ⟨?_, ?_⟩, fun h => ⟨?_, ?_⟩,
    fun h => ⟨?_, ?_⟩, fun h => ⟨?_, ?_⟩, ?_, ?_, ?_, ?_, ?_⟩ <;>
    simp [updateState_eq, newStateAttr, newFloatAttr, newModeAttr,
      newActionAttr, stateStepLogs, floatStepLogs, strStepLogs, hr, *]

theorem claim_C3_template_error_isolated_witness :
    tplErr.render = Except.error ⟨"boom"⟩ ∧
    stateErrEntity.state_template = some tplErr ∧
    ((updateState stateErrEntity).1.state = stateErrEntity.state ∧
      Effect.logTemplateError .stateT "boom" ∈ (updateState stateErrEntity).2) ∧
    (updateState stateErrEntity).1.attr_mode =
      newModeAttr stateErrEntity.mode_template stateErrEntity.attr_mode :=
  ⟨rfl, rfl,
    (claim_C3_template_error_isolated stateErrEntity tplErr ⟨"boom"⟩ rfl).1 rfl,
    (claim_C3_template_error_isolated stateErrEntity tplErr ⟨"boom"⟩
      rfl).2.2.2.2.2.2.2.2.1⟩

/-- C10: a humidity-template render whose value `float` cannot convert is
treated like a render failure — previous value kept, error logged — while
the mode and action templates accept any rendered value: the mode is
stringified and stripped, the action stringified, and neither block ever
logs an error for a successful render. -/
theorem claim_C10_float_value_error (e : TemplateHumidifier) (t : Template)
    (v : PyValue) (hr : t.render = .ok v) :
    (e.target_humidity_template = some t → pyFloat v = none →
      (updateState e).1.attr_target_humidity = e.attr_target_humidity ∧
      Effect.logTemplateError .targetHumidityT valueErrorMsg ∈
        (updateState e).2) ∧
    (e.current_humidity_template = some t → pyFloat v = none →
      (updateState e).1.attr_current_humidity = e.attr_current_humidity ∧
      Effect.logTemplateError .currentHumidityT valueErrorMsg ∈
        (updateState e).2) ∧
    (e.mode_template = some t →
      (updateState e).1.attr_mode = some (pyStrip (pyStr v)) ∧
      ∀ msg, Effect.logTemplateError .modeT msg ∉ (updateState e).2) ∧
    (e.action_template = some t →
      (updateState e).1.attr_action = some (pyStr v) ∧
      ∀ msg, Effect.logTemplateError .actionT msg ∉ (updateState e).2) := by
  refine ⟨fun h hf => ⟨?_, ?_⟩, fun h hf => ⟨?_, ?_⟩,
    fun h => ⟨?_, ?_⟩, fun h => ⟨?_, ?_⟩⟩
  · simp [updateState_eq, newFloatAttr, h, hr, hf]
  · simp [updateState_eq, floatStepLogs, h, hr, hf]
  · simp [updateState_eq, newFloatAttr, h, hr, hf]
  · simp [updateState_eq, floatStepLogs, h, hr, hf]
  · simp [updateState_eq, newModeAttr, h, hr]
  · intro msg hmem
    rw [updateState_eq] at hmem
    simp only [List.mem_append] at hmem
    rcases hmem with ((((h1 | h2) | h3) | h4) | h5)
    · exact absurd (mem_stateStepLogs_kind _ _ _ h1) (by decide)
    · exact absurd (mem_floatStepLogs_kind _ _ _ _ h2) (by decide)
    · exact absurd (mem_floatStepLogs_kind _ _ _ _ h3) (by decide)
    · rw [h] at h4
      simp [strStepLogs, hr] at h4
    · exact absurd (mem_strStepLogs_kind _ _ _ _ h5) (by decide)
  · simp [updateState_eq, newActionAttr, h, hr]
  · intro msg hmem
    rw [updateState_eq] at hmem
    simp only [List.mem_append] at hmem
    rcases hmem with ((((h1 | h2) | h3) | h4) | h5)
    · exact absurd (mem_stateStepLogs_kind _ _ _ h1) (by decide)
    · exact absurd (mem_floatStepLogs_kind _ _ _ _ h2) (by decide)
    · exact absurd (mem_floatStepLogs_kind _ _ _ _ h3) (by decide)
    · exact absurd (mem_strStepLogs_kind _ _ _ _ h4) (by decide)
    · rw [h] at h5
      simp [strStepLogs, hr] at h5

theorem claim_C10_float_value_error_witness :
    tplBad.render = Except.ok (.str "soggy") ∧
    badFloatEntity.target_humidity_template = some tplBad ∧
    pyFloat (.str "soggy") = none ∧
    ((updateState badFloatEntity).1.attr_target_humidity =
        badFloatEntity.attr_target_humidity ∧
      Effect.logTemplateError .targetHumidityT valueErrorMsg ∈
        (updateState badFloatEntity).2) ∧
    ((updateState badFloatEntity).1.attr_mode =
        some (pyStrip (pyStr (.str " eco "))) ∧
      ∀ msg, Effect.logTemplateError .modeT msg ∉
        (updateState badFloatEntity).2) :=
  ⟨rfl, rfl, by decide,
    (claim_C10_float_value_error badFloatEntity tplBad (.str "soggy") rfl).1
      rfl (by decide),
    (claim_C10_float_value_error badFloatEntity tplMode (.str " eco ")
      rfl).2.2.1 rfl⟩

/-- C7: the state-change callback runs one full recompute — every
observable attribute becomes the value its own template dictates — and then
writes the entity state to the host; `async_added_to_hass` runs the same
recompute once at add time after registering the tracked entities. -/
theorem claim_C7_notify_recompute_write (e : TemplateHumidifier) :
    (onStateChange e).1 = (updateState e).1 ∧
    (onStateChange e).2 = (updateState e).2 ++ [Effect.writeHAState] ∧
    Effect.writeHAState ∈ (onStateChange e).2 ∧
    (onStateChange e).1.state = newStateAttr e.state_template e.state ∧
    (onStateChange e).1.attr_target_humidity =
      newFloatAttr e.target_humidity_template e.attr_target_humidity ∧
    (onStateChange e).1.attr_current_humidity =
      newFloatAttr e.current_humidity_template e.attr_current_humidity ∧
    (onStateChange e).1.attr_mode = newModeAttr e.mode_template e.attr_mode ∧
    (onStateChange e).1.attr_action =
      newActionAttr e.action_template e.attr_action ∧
    (async_added_to_hass e).entity = (updateState e).1 ∧
    (async_added_to_hass e).trackedEntities = _get_template_entities e := by
  refine ⟨rfl, rfl, ?_, ?_, ?_, ?_, ?_, ?_, rfl, rfl⟩ <;>
    simp [onStateChange, updateState_eq]

/-- C5: the tracked-entity list is duplicate-free and contains exactly the
entities referenced by those of the five templates whose reference analysis
succeeds; a template that raises contributes nothing and aborts nothing. -/
theorem claim_C5_tracked_entities (e : TemplateHumidifier) :
    (_get_template_entities e).Nodup ∧
    ∀ x, (x ∈ _get_template_entities e ↔
      ∃ t ∈ [e.target_humidity_template, e.current_humidity_template,
             e.state_template, e.mode_template, e.action_template],
        ∃ tpl es, t = some tpl ∧ tpl.renderInfoEntities = Except.ok es ∧
          x ∈ es) := by
  constructor
  · exact gather_fold_nodup _ _ (by simp)
  · intro x
    simpa [_get_template_entities] using
      gather_fold_mem [e.target_humidity_template, e.current_humidity_template,
        e.state_template, e.mode_template, e.action_template] [] x

/-- C4: a recompute coerces each successful template render into its
attribute's type and stores it — the state result through the
boolean coercion the specification lists (literal lists, then truthiness),
the humidity results through `float`, the mode result through `str` (and a
strip), the action result through `str`. -/
theorem claim_C4_recompute_coercions :
    (∀ v : PyValue, stateCoerce v = claimStateCoerce v) ∧
    (∀ e t v, e.state_template = some t → t.render = .ok v →
      (updateState e).1.state = stateCoerce v) ∧
    (∀ e t v q, e.target_humidity_template = some t → t.render = .ok v →
      pyFloat v = some q → (updateState e).1.attr_target_humidity = some q) ∧
    (∀ e t v q, e.current_humidity_template = some t → t.render = .ok v →
      pyFloat v = some q → (updateState e).1.attr_current_humidity = some q) ∧
    (∀ e t v, e.mode_template = some t → t.render = .ok v →
      (updateState e).1.attr_mode = some (pyStrip (pyStr v))) ∧
    (∀ e t v, e.action_template = some t → t.render = .ok v →
      (updateState e).1.attr_action = some (pyStr v)) := by
  refine ⟨stateCoerce_eq_claim, fun e t v h hr => ?_,
    fun e t v q h hr hf => ?_, fun e t v q h hr hf => ?_,
    fun e t v h hr => ?_, fun e t v h hr => ?_⟩ <;>
    simp [updateState_eq, newStateAttr, newFloatAttr, newModeAttr,
      newActionAttr, *]

theorem claim_C4_recompute_coercions_witness :
    templatedEntity.state_template = some tplOn ∧
    tplOn.render = Except.ok (.str "on") ∧
    (updateState templatedEntity).1.state = stateCoerce (.str "on") ∧
    templatedEntity.target_humidity_template = some tplNum ∧
    tplNum.render = Except.ok (.float (111 / 2)) ∧
    (updateState templatedEntity).1.attr_target_humidity = some (111 / 2) ∧
    (updateState templatedEntity).1.attr_mode =
      some (pyStrip (pyStr (.str " eco "))) :=
  ⟨rfl, rfl, claim_C4_recompute_coercions.2.1 templatedEntity tplOn
      (.str "on") rfl rfl,
    rfl, rfl, claim_C4_recompute_coercions.2.2.1 templatedEntity tplNum
      (.float (111 / 2)) (111 / 2) rfl rfl rfl,
    claim_C4_recompute_coercions.2.2.2.2.1 templatedEntity tplMode
      (.str " eco ") rfl rfl⟩

/-- C6: `PLATFORM_SCHEMA` validation yields exactly: name defaulting to
"Template Humidifier", unique id passed through, humidity bounds coerced to
float with defaults 40 and 70, the mode list defaulting to the nine
standard modes, and the five templates and four script references passed
through as optional fields. -/
theorem claim_C6_schema_fields (raw : RawConfig) (cfg : Config)
    (h : applySchema raw = .ok cfg) :
    cfg.name = raw.name.getD DEFAULT_NAME ∧
    cfg.unique_id = raw.unique_id ∧
    (raw.min_humidity = none → cfg.min_humidity = DEFAULT_MIN_HUMIDITY) ∧
    (∀ v, raw.min_humidity = some v → pyFloat v = some cfg.min_humidity) ∧
    (raw.max_humidity = none → cfg.max_humidity = DEFAULT_MAX_HUMIDITY) ∧
    (∀ v, raw.max_humidity = some v → pyFloat v = some cfg.max_humidity) ∧
    cfg.modes = raw.modes.getD DEFAULT_MODES ∧
    cfg.target_humidity_template = raw.target_humidity_template ∧
    cfg.current_humidity_template = raw.current_humidity_template ∧
    cfg.state_template = raw.state_template ∧
    cfg.mode_template = raw.mode_template ∧
    cfg.action_template = raw.action_template ∧
    cfg.set_target_humidity_action = raw.set_target_humidity_action ∧
    cfg.set_mode_action = raw.set_mode_action ∧
    cfg.turn_on_action = raw.turn_on_action ∧
    cfg.turn_off_action = raw.turn_off_action ∧
    DEFAULT_NAME = "Template Humidifier" ∧
    DEFAULT_MIN_HUMIDITY = 40 ∧
    DEFAULT_MAX_HUMIDITY = 70 ∧
    DEFAULT_MODES = ["normal", "eco", "away", "boost", "comfort", "home",
      "sleep", "auto", "baby"] := by
  have hdmin : pyFloat (.float DEFAULT_MIN_HUMIDITY) =
      some DEFAULT_MIN_HUMIDITY := rfl
  have hdmax : pyFloat (.float DEFAULT_MAX_HUMIDITY) =
      some DEFAULT_MAX_HUMIDITY := rfl
  rcases hmin : raw.min_humidity with _ | vmin <;>
    rcases hmax : raw.max_humidity with _ | vmax
  · simp only [applySchema, hmin, hmax, coerceFloat, hdmin, hdmax,
      Except.bind, bind, pure, Except.pure, Except.ok.injEq] at h
    subst h
    refine ⟨rfl, rfl, fun _ => rfl, fun v hv => ?_, fun _ => rfl,
      fun v hv => ?_, rfl, rfl, rfl, rfl, rfl, rfl, rfl, rfl, rfl, rfl,
      rfl, rfl, rfl, rfl⟩ <;> simp [hmin, hmax] at hv
  · rcases hfmax : pyFloat vmax with _ | qmax <;>
      simp only [applySchema, hmin, hmax, coerceFloat, hdmin, hfmax,
        Except.bind, bind, pure, Except.pure, Except.ok.injEq] at h
    · exact Except.noConfusion h
    subst h
    refine ⟨rfl, rfl, fun _ => rfl, fun v hv => ?_, fun hc => ?_,
      fun v hv => ?_, rfl, rfl, rfl, rfl, rfl, rfl, rfl, rfl, rfl, rfl,
      rfl, rfl, rfl, rfl⟩
    · simp [hmin] at hv
    · simp [hmax] at hc
    · injection hv with hv
      subst hv
      exact hfmax
  · rcases hfmin : pyFloat vmin with _ | qmin <;>
      simp only [applySchema, hmin, hmax, coerceFloat, hdmax, hfmin,
        Except.bind, bind, pure, Except.pure, Except.ok.injEq] at h
    · exact Except.noConfusion h
    subst h
    refine ⟨rfl, rfl, fun hc => ?_, fun v hv => ?_, fun _ => rfl,
      fun v hv => ?_, rfl, rfl, rfl, rfl, rfl, rfl, rfl, rfl, rfl, rfl,
      rfl, rfl, rfl, rfl⟩
    · simp [hmin] at hc
    · injection hv with hv
      subst hv
      exact hfmin
    · simp [hmax] at hv
  · rcases hfmin : pyFloat vmin with _ | qmin <;>
      rcases hfmax : pyFloat vmax with _ | qmax <;>
      simp only [applySchema, hmin, hmax, coerceFloat, hfmin, hfmax,
        Except.bind, bind, pure, Except.pure, Except.ok.injEq] at h
    · exact Except.noConfusion h
    · exact Except.noConfusion h
    · exact Except.noConfusion h
    subst h
    refine ⟨rfl, rfl, fun hc => ?_, fun v hv => ?_, fun hc => ?_,
      fun v hv => ?_, rfl, rfl, rfl, rfl, rfl, rfl, rfl, rfl, rfl, rfl,
      rfl, rfl, rfl, rfl⟩
    · simp [hmin] at hc
    · injection hv with hv
      subst hv
      exact hfmin
    · simp [hmax] at hc
    · injection hv with hv
      subst hv
      exact hfmax

theorem claim_C6_schema_fields_witness :
    applySchema emptyRawConfig = Except.ok defaultConfig ∧
    defaultConfig.name = emptyRawConfig.name.getD DEFAULT_NAME ∧
    (emptyRawConfig.min_humidity = none →
      defaultConfig.min_humidity = DEFAULT_MIN_HUMIDITY) ∧
    defaultConfig.modes = emptyRawConfig.modes.getD DEFAULT_MODES ∧
    applySchema sampleRawConfig = Except.ok sampleConfig ∧
    (∀ v, sampleRawConfig.min_humidity = some v →
      pyFloat v = some sampleConfig.min_humidity) ∧
    sampleConfig.turn_on_action = sampleRawConfig.turn_on_action :=
  ⟨rfl,
    (claim_C6_schema_fields emptyRawConfig defaultConfig rfl).1,
    (claim_C6_schema_fields emptyRawConfig defaultConfig rfl).2.2.1,
    (claim_C6_schema_fields emptyRawConfig defaultConfig rfl).2.2.2.2.2.2.1,
    rfl,
    (claim_C6_schema_fields sampleRawConfig sampleConfig rfl).2.2.2.1,
    (claim_C6_schema_fields sampleRawConfig sampleConfig
      rfl).2.2.2.2.2.2.2.2.2.2.2.2.2.2.1⟩

end TemplateHumidifier

end HumidifierTemplate
